import Mathlib

/-!
Shallow embedding of src/app.py (a small inventory/sales bookkeeping backend)
and proofs about its normalization, transaction-processing, analytics and
CRUD logic.

Two levels are modelled.  The "raw" level (RawVal, RawProduct, RawDoc, ...)
embeds documents as they arrive from JSON decoding, with possibly missing,
string-valued or otherwise ill-typed numeric fields; validate_data
(src/app.py lines 72-126) operates on this level.  The "typed" level
(Product, Transaction, Doc, ...) embeds well-typed documents, the domain on
which the request handlers (add_product, add_transaction, update_product,
delete_product, get_sales_analytics, get_balance, note handlers) operate.

Numbers are embedded as Rat (Python floats used by the program hold small
decimal quantities), timestamps as Int seconds, and a calendar day as the
floor of a timestamp divided by 86400.
-/

namespace App

/-- Raw JSON value of a numeric field as seen by validate_data
(src/app.py lines 94-124): the key is absent, a number, a string
(represented by the outcome of Python float parsing: some q when
float(s) returns a finite value q, none when float(s) raises), or any
other JSON value (null, list, ...), which the code leaves untouched. -/
inductive RawVal where
  | missing
  | num (q : Rat)
  | str (p : Option Rat)
  | other
deriving DecidableEq

/-- Truncation toward zero, the behaviour of Python int() on a float. -/
def ztrunc (q : Rat) : Int :=
  if 0 ≤ q then q.floor else -(Rat.floor (-q))

/-- Normalization of the price / cost / amount fields
(src/app.py lines 83, 94-98, 106-110, 114, 120-124): setdefault to 0,
then convert a string via float(), with a bare except degrading to 0;
non-string non-number values are left untouched. -/
def normNumField : RawVal → RawVal
  | .missing => .num 0
  | .num q => .num q
  | .str (some q) => .num q
  | .str none => .num 0
  | .other => .other

/-- Normalization of the stock field (src/app.py lines 84, 100-104):
setdefault to 0, then convert a string via int(float(s)) (truncation
toward zero), degrading to 0 on failure. -/
def normStockField : RawVal → RawVal
  | .missing => .num 0
  | .num q => .num q
  | .str (some q) => .num ((ztrunc q : Int) : Rat)
  | .str none => .num 0
  | .other => .other

/-- Python dict.setdefault with a numeric default: fills only a missing key. -/
def fillNum (v : RawVal) (d : Rat) : RawVal :=
  match v with
  | .missing => .num d
  | w => w

/-- Raw product record: the fields touched or carried by validate_data. -/
structure RawProduct where
  id : Option Int
  name : Option String
  price : RawVal
  stock : RawVal
  cost : RawVal
  category : Option String
  supplier : Option String
  min_stock : RawVal
  max_stock : RawVal
  barcode : Option String
  unit : Option String
  last_updated : Option String
deriving DecidableEq

/-- Per-product normalization performed by validate_data
(src/app.py lines 81-110). -/
def validate_product (p : RawProduct) : RawProduct :=
  { p with
    price := normNumField p.price
    stock := normStockField p.stock
    cost := normNumField p.cost
    category := some (p.category.getD "")
    supplier := some (p.supplier.getD "")
    min_stock := fillNum p.min_stock 5
    max_stock := fillNum p.max_stock 100
    barcode := some (p.barcode.getD "")
    unit := some (p.unit.getD "piece") }

/-- Raw item of a transaction's items list (not touched by validate_data). -/
structure RawItem where
  name : Option String
  quantity : Option Rat
  price : Option Rat
deriving DecidableEq

/-- Raw transaction record: the fields touched or carried by validate_data. -/
structure RawTransaction where
  id : Option Int
  date : Option String
  type : Option String
  amount : RawVal
  customer : Option String
  supplier : Option String
  description : Option String
  items : Option (List RawItem)
deriving DecidableEq

/-- Per-transaction normalization performed by validate_data
(src/app.py lines 113-124). -/
def validate_transaction (t : RawTransaction) : RawTransaction :=
  { t with
    amount := normNumField t.amount
    customer := some (t.customer.getD "")
    supplier := some (t.supplier.getD "")
    description := some (t.description.getD "")
    items := some (t.items.getD []) }

/-- Raw customer record (carried, not modified, by validate_data). -/
structure RawCustomer where
  id : Option Int
  name : Option String
  contact : Option String
  email : Option String
  total_spent : RawVal
deriving DecidableEq

/-- Raw supplier record (carried, not modified, by validate_data). -/
structure RawSupplier where
  id : Option Int
  name : Option String
  contact : Option String
  email : Option String
deriving DecidableEq

/-- Raw note record (carried, not modified, by validate_data). -/
structure RawNote where
  id : Option String
  title : Option String
  content : Option String
  category : Option String
deriving DecidableEq

/-- Raw settings object (carried, not modified, by validate_data). -/
structure RawSettings where
  tax_rate : Rat
deriving DecidableEq

/-- Raw decoded document: each top-level key may be absent
(src/app.py lines 75-78). -/
structure RawDoc where
  products : Option (List RawProduct)
  transactions : Option (List RawTransaction)
  customers : Option (List RawCustomer)
  suppliers : Option (List RawSupplier)
  notes : Option (List RawNote)
  settings : Option RawSettings
deriving DecidableEq

/-- Seed products of get_default_data (src/app.py lines 35-51). -/
def seed_products : List RawProduct :=
  [ { id := some 1, name := some "250ltrs open plastic Drum", price := .num 2900,
      stock := .num 10, cost := .num 2000, category := some "Drums",
      supplier := some "Plastic Works Ltd", min_stock := .num 2, max_stock := .num 50,
      barcode := some "DRUM250OP", unit := some "piece", last_updated := none },
    { id := some 2, name := some "250lts close Drum", price := .num 3000,
      stock := .num 8, cost := .num 2100, category := some "Drums",
      supplier := some "Plastic Works Ltd", min_stock := .num 2, max_stock := .num 40,
      barcode := some "DRUM250CL", unit := some "piece", last_updated := none },
    { id := some 3, name := some "170lts Drum", price := .num 2200,
      stock := .num 15, cost := .num 1500, category := some "Drums",
      supplier := some "Container Solutions", min_stock := .num 3, max_stock := .num 60,
      barcode := some "DRUM170", unit := some "piece", last_updated := none },
    { id := some 4, name := some "120lts Plastic Drum", price := .num 1500,
      stock := .num 12, cost := .num 1000, category := some "Drums",
      supplier := some "Container Solutions", min_stock := .num 5, max_stock := .num 80,
      barcode := some "DRUM120", unit := some "piece", last_updated := none },
    { id := some 5, name := some "80lts Plastic Drum", price := .num 1000,
      stock := .num 20, cost := .num 700, category := some "Drums",
      supplier := some "Plastic Works Ltd", min_stock := .num 5, max_stock := .num 100,
      barcode := some "DRUM80", unit := some "piece", last_updated := none } ]

/-- Seed transactions of get_default_data (src/app.py lines 52-59). -/
def seed_transactions : List RawTransaction :=
  [ { id := some 1, date := some "2024-01-15 10:30:00", type := some "sale",
      amount := .num 5800, customer := some "John Doe", supplier := none,
      description := none,
      items := some [{ name := some "250ltrs open plastic Drum",
                       quantity := some 2, price := some 2900 }] },
    { id := some 2, date := some "2024-01-16 14:20:00", type := some "purchase",
      amount := .num 4200, customer := none, supplier := some "Plastic Works Ltd",
      description := some "Restock drums", items := none },
    { id := some 3, date := some "2024-01-17 09:15:00", type := some "sale",
      amount := .num 2200, customer := some "Jane Smith", supplier := none,
      description := none,
      items := some [{ name := some "170lts Drum",
                       quantity := some 1, price := some 2200 }] } ]

/-- Seed customers of get_default_data (src/app.py lines 60-63). -/
def seed_customers : List RawCustomer :=
  [ { id := some 1, name := some "John Doe", contact := some "0712345678",
      email := some "john@example.com", total_spent := .num 5800 },
    { id := some 2, name := some "Jane Smith", contact := some "0723456789",
      email := some "jane@example.com", total_spent := .num 2200 } ]

/-- Seed suppliers of get_default_data (src/app.py lines 64-67). -/
def seed_suppliers : List RawSupplier :=
  [ { id := some 1, name := some "Plastic Works Ltd", contact := some "0721000001",
      email := some "sales@plasticworks.co.ke" },
    { id := some 2, name := some "Container Solutions", contact := some "0721000002",
      email := some "info@containers.co.ke" } ]

/-- get_default_data (src/app.py lines 32-70): the hard-coded seed document. -/
def get_default_data : RawDoc :=
  { products := some seed_products
    transactions := some seed_transactions
    customers := some seed_customers
    suppliers := some seed_suppliers
    notes := some []
    settings := some { tax_rate := 16 } }

/-- validate_data (src/app.py lines 72-126): fills each missing top-level key
from the seed document, then normalizes every product and every transaction
in place. -/
def validate_data (d : RawDoc) : RawDoc :=
  { products := some ((d.products.getD seed_products).map validate_product)
    transactions :=
      some ((d.transactions.getD seed_transactions).map validate_transaction)
    customers := some (d.customers.getD seed_customers)
    suppliers := some (d.suppliers.getD seed_suppliers)
    notes := some (d.notes.getD [])
    settings := some (d.settings.getD { tax_rate := 16 }) }

/-- Typed product record, the shape produced by the system's own creation and
normalization paths (numeric price / stock / cost, string descriptive fields);
the domain on which the request handlers operate. -/
structure Product where
  id : Int
  name : String
  price : Rat
  stock : Rat
  cost : Rat
  category : String
  supplier : String
  min_stock : Rat
  max_stock : Rat
  barcode : Option String
  unit : Option String
  last_updated : Option Int
deriving DecidableEq

/-- Item of a sale transaction's items list: quantity and price may be absent
(the handlers read them with dict.get), the name is read with a direct
subscript (src/app.py line 223) and is therefore required here. -/
structure Item where
  name : String
  quantity : Option Rat
  price : Option Rat
deriving DecidableEq

/-- Typed transaction record.  The date is the parse outcome of the stored
timestamp string (some t, a time in seconds, when strptime succeeds at
src/app.py line 247; none when it raises). -/
structure Transaction where
  id : Int
  date : Option Int
  type : String
  amount : Rat
  customer : String
  supplier : String
  description : String
  items : List Item
deriving DecidableEq

/-- Typed customer record. -/
structure Customer where
  id : Int
  name : String
  contact : String
  email : String
  total_spent : Rat
deriving DecidableEq

/-- Typed supplier record. -/
structure Supplier where
  id : Int
  name : String
  contact : String
  email : String
deriving DecidableEq

/-- Typed note record (identity is a UUID string, src/app.py line 342). -/
structure Note where
  id : String
  title : String
  content : String
  category : String
  created_at : Option Int
  updated_at : Option Int
deriving DecidableEq

/-- Typed settings object. -/
structure Settings where
  tax_rate : Rat
deriving DecidableEq

/-- Typed business document. -/
structure Doc where
  products : List Product
  transactions : List Transaction
  customers : List Customer
  suppliers : List Supplier
  notes : List Note
  settings : Settings
deriving DecidableEq

/-- Python max(list, default=0): the maximum of the list, or 0 when empty
(src/app.py lines 168 and 216). -/
def list_max0 : List Int → Int
  | [] => 0
  | x :: xs => xs.foldl max x

/-- Next identity assigned to a created product or transaction:
max of existing identities (default 0) plus one
(src/app.py lines 168 and 216). -/
def next_id (ids : List Int) : Int := list_max0 ids + 1

/-- Python float(v) with ValueError / TypeError degrading to a default
(src/app.py lines 159-166 and 211-214): numbers and numeric strings convert,
everything else fails. -/
def floatConv : RawVal → Option Rat
  | .missing => some 0
  | .num q => some q
  | .str (some q) => some q
  | .str none => none
  | .other => none

/-- Python int(float(v)) (src/app.py line 161): float conversion followed by
truncation toward zero. -/
def intFloatConv (v : RawVal) : Option Int :=
  (floatConv v).map ztrunc

/-- Payload of a product creation request (src/app.py lines 147-166):
numeric fields may arrive in any raw form, descriptive fields may be absent
(setdefault supplies category / supplier / min_stock / max_stock defaults;
barcode and unit are not defaulted by add_product). -/
structure ProdPayload where
  name : String
  price : RawVal
  stock : RawVal
  cost : RawVal
  category : Option String
  supplier : Option String
  min_stock : Option Rat
  max_stock : Option Rat
  barcode : Option String
  unit : Option String
deriving DecidableEq

/-- add_product (src/app.py lines 144-172): applies setdefault values,
converts price / stock / cost jointly (a single try block: any conversion
failure zeroes all three), assigns identity max+1, stamps last_updated and
appends the product.  Returns the new document and the created product. -/
def add_product (doc : Doc) (pl : ProdPayload) (now : Int) : Doc × Product :=
  let conv :=
    match floatConv pl.price, intFloatConv pl.stock, floatConv pl.cost with
    | some a, some b, some c => (a, (b : Rat), c)
    | _, _, _ => ((0 : Rat), (0 : Rat), (0 : Rat))
  let prod : Product :=
    { id := next_id (doc.products.map (fun p => p.id))
      name := pl.name
      price := conv.1
      stock := conv.2.1
      cost := conv.2.2
      category := pl.category.getD ""
      supplier := pl.supplier.getD ""
      min_stock := pl.min_stock.getD 5
      max_stock := pl.max_stock.getD 100
      barcode := pl.barcode
      unit := pl.unit
      last_updated := some now }
  ({ doc with products := doc.products ++ [prod] }, prod)

/-- Field updates supplied to a product update request: each field is
optionally present; a present field overwrites the stored one
(Python dict.update, src/app.py line 181). -/
structure ProdUpdates where
  id : Option Int
  name : Option String
  price : Option Rat
  stock : Option Rat
  cost : Option Rat
  category : Option String
  supplier : Option String
  min_stock : Option Rat
  max_stock : Option Rat
  barcode : Option String
  unit : Option String
deriving DecidableEq

/-- Overwrite an optional stored field only when the update supplies one. -/
def setOpt (new old : Option String) : Option String :=
  match new with
  | some s => some s
  | none => old

/-- dict.update(updates) on a product, with last_updated always refreshed
(src/app.py lines 179-181). -/
def apply_updates (p : Product) (u : ProdUpdates) (now : Int) : Product :=
  { id := u.id.getD p.id
    name := u.name.getD p.name
    price := u.price.getD p.price
    stock := u.stock.getD p.stock
    cost := u.cost.getD p.cost
    category := u.category.getD p.category
    supplier := u.supplier.getD p.supplier
    min_stock := u.min_stock.getD p.min_stock
    max_stock := u.max_stock.getD p.max_stock
    barcode := setOpt u.barcode p.barcode
    unit := setOpt u.unit p.unit
    last_updated := some now }

/-- Outcome of an update handler: the new document together with the updated
record, or the 404 "not found" response. -/
inductive UpdateOutcome (α : Type) where
  | ok (d : Doc) (x : α)
  | notFound
deriving DecidableEq

/-- Walk of the product list performed by update_product
(src/app.py lines 177-183): update the first record whose identity matches,
leave the rest untouched; none when no identity matches. -/
def update_products (ps : List Product) (pid : Int) (u : ProdUpdates)
    (now : Int) : Option (List Product × Product) :=
  match ps with
  | [] => none
  | p :: rest =>
    if p.id = pid then some (apply_updates p u now :: rest, apply_updates p u now)
    else
      match update_products rest pid u now with
      | some (ps2, q) => some (p :: ps2, q)
      | none => none

/-- update_product (src/app.py lines 174-184): updates the first product with
the given identity and saves; a missing identity yields the 404 outcome with
no save. -/
def update_product (doc : Doc) (pid : Int) (u : ProdUpdates) (now : Int) :
    UpdateOutcome Product :=
  match update_products doc.products pid u now with
  | some (ps2, q) => .ok { doc with products := ps2 } q
  | none => .notFound

/-- delete_product (src/app.py lines 186-191): filters out every product with
the given identity, saves, and returns HTTP 200 unconditionally. -/
def delete_product (doc : Doc) (pid : Int) : Doc × Nat :=
  ({ doc with products := doc.products.filter (fun p => p.id ≠ pid) }, 200)

/-- Field updates supplied to a note update request. -/
structure NoteUpdates where
  title : Option String
  content : Option String
  category : Option String
deriving DecidableEq

/-- dict.update(updates) on a note, with updated_at always refreshed
(src/app.py lines 357-359). -/
def apply_note_updates (n : Note) (u : NoteUpdates) (now : Int) : Note :=
  { id := n.id
    title := u.title.getD n.title
    content := u.content.getD n.content
    category := u.category.getD n.category
    created_at := n.created_at
    updated_at := some now }

/-- Walk of the note list performed by update_note
(src/app.py lines 355-361). -/
def update_notes (ns : List Note) (nid : String) (u : NoteUpdates)
    (now : Int) : Option (List Note × Note) :=
  match ns with
  | [] => none
  | n :: rest =>
    if n.id = nid then
      some (apply_note_updates n u now :: rest, apply_note_updates n u now)
    else
      match update_notes rest nid u now with
      | some (ns2, m) => some (n :: ns2, m)
      | none => none

/-- update_note (src/app.py lines 352-362). -/
def update_note (doc : Doc) (nid : String) (u : NoteUpdates) (now : Int) :
    UpdateOutcome Note :=
  match update_notes doc.notes nid u now with
  | some (ns2, m) => .ok { doc with notes := ns2 } m
  | none => .notFound

/-- delete_note (src/app.py lines 364-369): filters out every note with the
given identity, saves, and returns HTTP 200 unconditionally. -/
def delete_note (doc : Doc) (nid : String) : Doc × Nat :=
  ({ doc with notes := doc.notes.filter (fun n => n.id ≠ nid) }, 200)

/-- Payload of a transaction creation request (src/app.py lines 202-214):
the type key may be absent (it is read with a direct subscript at line 220),
amount may arrive in any raw form, items default to the empty list. -/
structure TxPayload where
  type : Option String
  amount : RawVal
  customer : Option String
  supplier : Option String
  description : Option String
  items : List Item
deriving DecidableEq

/-- Amount coercion of add_transaction (src/app.py lines 205, 211-214):
setdefault 0, then float() on the stored value with ValueError / TypeError
degrading to 0.  Unlike validate_data, float() is applied to non-strings too,
so every raw value converts. -/
def txAmount : RawVal → Rat
  | .missing => 0
  | .num q => q
  | .str (some q) => q
  | .str none => 0
  | .other => 0

/-- Stock decrement for one sold item (src/app.py lines 222-226): the first
product (in document order) whose name equals the item's name has its stock
replaced by max 0 (stock - quantity); the inner loop breaks after the first
match, and a name matching no product changes nothing. -/
def apply_sale_item (ps : List Product) (nm : String) (q : Rat) : List Product :=
  match ps with
  | [] => []
  | p :: rest =>
    if p.name = nm then { p with stock := max 0 (p.stock - q) } :: rest
    else p :: apply_sale_item rest nm q

/-- add_transaction (src/app.py lines 199-230): coerces the amount, assigns
identity max+1, stamps the date, decrements stock for each item when the type
is "sale" (quantity defaulting to 1, src/app.py line 224), and appends the
transaction.  Reading transaction["type"] at line 220 raises KeyError when
the payload has no type key; that unhandled-error path is modelled as none. -/
def add_transaction (doc : Doc) (pl : TxPayload) (now : Int) :
    Option (Doc × Transaction) :=
  match pl.type with
  | none => none
  | some ty =>
    let ps :=
      if ty = "sale" then
        pl.items.foldl (fun acc it => apply_sale_item acc it.name (it.quantity.getD 1))
          doc.products
      else doc.products
    let tr : Transaction :=
      { id := next_id (doc.transactions.map (fun t => t.id))
        date := some now
        type := ty
        amount := txAmount pl.amount
        customer := pl.customer.getD ""
        supplier := pl.supplier.getD ""
        description := pl.description.getD ""
        items := pl.items }
    some ({ doc with products := ps, transactions := doc.transactions ++ [tr] }, tr)

/-- Calendar day of a timestamp: the strftime date portion of a time is
modelled as the floor of the time in seconds divided by the length of a day. -/
def dayOf (t : Int) : Int := t / 86400

/-- The while loop of get_sales_analytics (src/app.py lines 264-269): walk
from the window start in exact one-day steps while not past the window end,
collecting each visited time. -/
def dayWalk (cur e : Int) : List Int :=
  if h : cur ≤ e then cur :: dayWalk (cur + 86400) e else []
termination_by (e + 86400 - cur).toNat
decreasing_by
  omega

/-- One step of the aggregation loop of get_sales_analytics
(src/app.py lines 244-250): a sale transaction whose date parsed and lies in
the window and on day d adds its amount to the day-d bucket; every other
transaction (wrong type, unparseable date, outside the window, other day)
leaves the bucket alone. -/
def bucket_step (s e d : Int) (acc : Rat) (tr : Transaction) : Rat :=
  if tr.type = "sale" then
    match tr.date with
    | some t => if s ≤ t ∧ t ≤ e ∧ dayOf t = d then acc + tr.amount else acc
    | none => acc
  else acc

/-- Total amount bucketed for one calendar day by the aggregation loop of
get_sales_analytics (src/app.py lines 244-250). -/
def daily_total (ts : List Transaction) (s e d : Int) : Rat :=
  ts.foldl (bucket_step s e d) 0

/-- The dates / sales portion of the get_sales_analytics response
(src/app.py lines 233-277): aligned dense per-day series over the window
[now - days * day, now]. -/
structure SalesReport where
  dates : List Int
  sales : List Rat
deriving DecidableEq

/-- get_sales_analytics, dates / sales part (src/app.py lines 233-277):
the window start is now minus days whole days; every day of the walk emits
its calendar day and that day's bucketed total (0 when the bucket is empty). -/
def get_sales_analytics (ts : List Transaction) (now days : Int) : SalesReport :=
  let s := now - days * 86400
  let walk := dayWalk s now
  { dates := walk.map dayOf
    sales := walk.map (fun c => daily_total ts s now (dayOf c)) }

/-- Balance report (src/app.py lines 279-326). -/
structure Balance where
  income : Rat
  expenses : Rat
  stock_value : Rat
  gross_profit : Rat
  total_customers : Nat
  total_products : Nat
deriving DecidableEq

/-- Sum of amounts over transactions of one type, the accumulation loops of
get_balance (src/app.py lines 285-294). -/
def sum_amounts (ts : List Transaction) (ty : String) : Rat :=
  ts.foldl (fun acc t => if t.type = ty then acc + t.amount else acc) 0

/-- get_balance (src/app.py lines 279-326): all-time income over sales,
expenses over purchases, stock valuation, gross profit and raw counts. -/
def get_balance (doc : Doc) : Balance :=
  let income := sum_amounts doc.transactions "sale"
  let expenses := sum_amounts doc.transactions "purchase"
  { income := income
    expenses := expenses
    stock_value := doc.products.foldl (fun acc p => acc + p.price * p.stock) 0
    gross_profit := income - expenses
    total_customers := doc.customers.length
    total_products := doc.products.length }

/-- Python str.endswith: suffix match on the character sequence. -/
def ends_with (s suffix : String) : Bool :=
  List.isSuffixOf suffix.data s.data

/-- restore_data (src/app.py lines 443-464): the upload is an optional pair
of filename and parse outcome (none when json.load raises).  A missing file,
empty filename, filename not ending in ".json", or unparseable content is
rejected with HTTP 400 and the persisted document is untouched; otherwise the
normalized upload replaces the persisted document with HTTP 200. -/
def restore_data (persisted : RawDoc)
    (upload : Option (String × Option RawDoc)) : RawDoc × Nat :=
  match upload with
  | none => (persisted, 400)
  | some (fname, content) =>
    if fname = "" then (persisted, 400)
    else if ends_with fname ".json" then
      match content with
      | some d => (validate_data d, 200)
      | none => (persisted, 400)
    else (persisted, 400)

/-- Repeated product creation: n applications of add_product with the same
payload, the document threaded through (each request reloads, mutates and
saves the whole document). -/
def create_products (doc : Doc) (pl : ProdPayload) (now : Int) : Nat → Doc
  | 0 => doc
  | n + 1 => (add_product (create_products doc pl now n) pl now).1

/-- Sample typed product: stock 10, named Drum, identity 1. -/
def drum10 : Product :=
  { id := 1, name := "Drum", price := 2900, stock := 10, cost := 2000,
    category := "Drums", supplier := "S", min_stock := 2, max_stock := 50,
    barcode := none, unit := none, last_updated := none }

/-- Second sample typed product, identity 2. -/
def drum2 : Product :=
  { drum10 with id := 2, name := "Lid" }

/-- Sample typed document holding only drum10. -/
def sample_doc : Doc :=
  { products := [drum10], transactions := [], customers := [], suppliers := [],
    notes := [], settings := { tax_rate := 16 } }

/-- Sample typed document holding drum10 and drum2. -/
def two_doc : Doc :=
  { sample_doc with products := [drum10, drum2] }

/-- Typed document with no products. -/
def empty_doc : Doc :=
  { products := [], transactions := [], customers := [], suppliers := [],
    notes := [], settings := { tax_rate := 16 } }

/-- Sample product creation payload. -/
def sample_payload : ProdPayload :=
  { name := "Jerrican", price := .num 500, stock := .num 4, cost := .num 300,
    category := none, supplier := none, min_stock := none, max_stock := none,
    barcode := none, unit := none }

/-- Sample product update: change only the price. -/
def sample_updates : ProdUpdates :=
  { id := none, name := none, price := some 3100, stock := none, cost := none,
    category := none, supplier := none, min_stock := none, max_stock := none,
    barcode := none, unit := none }

/-- Sale payload selling 3 Drums. -/
def sale_payload : TxPayload :=
  { type := some "sale", amount := .num 8700, customer := some "John Doe",
    supplier := none, description := none,
    items := [{ name := "Drum", quantity := some 3, price := some 2900 }] }

/-- Transaction payload with no type key. -/
def no_type_payload : TxPayload :=
  { type := none, amount := .missing, customer := none, supplier := none,
    description := none, items := [] }

/-- Purchase payload with an unparseable amount string. -/
def purchase_payload : TxPayload :=
  { type := some "purchase", amount := .str none, customer := none,
    supplier := some "Plastic Works Ltd", description := some "Restock",
    items := [] }

/-- Raw product with a negative numeric string price, a raw string "12.5"
would be RawVal.str (some (25/2)). -/
def bad_product : RawProduct :=
  { id := none, name := some "X", price := .str (some (-5)), stock := .num 0,
    cost := .num 0, category := none, supplier := none, min_stock := .missing,
    max_stock := .missing, barcode := none, unit := none, last_updated := none }

/-- Raw document holding only bad_product. -/
def bad_doc : RawDoc :=
  { products := some [bad_product], transactions := some [], customers := some [],
    suppliers := some [], notes := some [], settings := some { tax_rate := 16 } }

/-- Sample raw product: price the numeric string "12.5", stock an unparseable
string, cost numeric. -/
def sample_raw_product : RawProduct :=
  { id := some 7, name := some "Pail", price := .str (some (25 / 2)),
    stock := .str none, cost := .num 3, category := none, supplier := none,
    min_stock := .missing, max_stock := .missing, barcode := none, unit := none,
    last_updated := none }

theorem normNumField_idem (v : RawVal) :
    normNumField (normNumField v) = normNumField v := by
  cases v with
  | str r => cases r <;> rfl
  | missing => rfl
  | num q => rfl
  | other => rfl

theorem normStockField_idem (v : RawVal) :
    normStockField (normStockField v) = normStockField v := by
  cases v with
  | str r => cases r <;> rfl
  | missing => rfl
  | num q => rfl
  | other => rfl

theorem fillNum_idem (v : RawVal) (d : Rat) :
    fillNum (fillNum v d) d = fillNum v d := by
  cases v <;> rfl

theorem validate_product_idem (p : RawProduct) :
    validate_product (validate_product p) = validate_product p := by
  simp [validate_product, normNumField_idem, normStockField_idem, fillNum_idem]

theorem validate_transaction_idem (t : RawTransaction) :
    validate_transaction (validate_transaction t) = validate_transaction t := by
  simp [validate_transaction, normNumField_idem]

theorem map_validate_product_idem (l : List RawProduct) :
    (l.map validate_product).map validate_product = l.map validate_product := by
  rw [List.map_map]
  exact List.map_congr_left fun a _ => validate_product_idem a

theorem map_validate_transaction_idem (l : List RawTransaction) :
    (l.map validate_transaction).map validate_transaction
      = l.map validate_transaction := by
  rw [List.map_map]
  exact List.map_congr_left fun a _ => validate_transaction_idem a

/-- Claim C9: normalization is idempotent — for every raw document d,
validate_data (validate_data d) = validate_data d, so applying the Schema
Normalizer to an already-normalized document changes nothing. -/
theorem validate_data_idempotent (d : RawDoc) :
    validate_data (validate_data d) = validate_data d := by
  simp only [validate_data, Option.getD_some]
  rw [map_validate_product_idem, map_validate_transaction_idem]

theorem normNumField_isNum (v : RawVal) (h : v ≠ RawVal.other) :
    ∃ q : Rat, normNumField v = RawVal.num q := by
  cases v with
  | missing => exact ⟨0, rfl⟩
  | num q => exact ⟨q, rfl⟩
  | str r =>
    cases r with
    | none => exact ⟨0, rfl⟩
    | some q => exact ⟨q, rfl⟩
  | other => exact absurd rfl h

theorem normStockField_isNum (v : RawVal) (h : v ≠ RawVal.other) :
    ∃ q : Rat, normStockField v = RawVal.num q := by
  cases v with
  | missing => exact ⟨0, rfl⟩
  | num q => exact ⟨q, rfl⟩
  | str r =>
    cases r with
    | none => exact ⟨0, rfl⟩
    | some q => exact ⟨((ztrunc q : Int) : Rat), rfl⟩
  | other => exact absurd rfl h

theorem normStockField_str_isInt (r : Option Rat) :
    ∃ n : Int, normStockField (RawVal.str r) = RawVal.num (n : Rat) := by
  cases r with
  | none => exact ⟨0, by simp [normStockField]⟩
  | some q => exact ⟨ztrunc q, rfl⟩

/-- Claim C2 counterexample: the numeric string "-5" (a string whose Python
float parse is -5) is parsed by normalization to the negative number -5, so
the normalized price is not non-negative. -/
theorem validate_data_negative_price :
    ((validate_data bad_doc).products.getD []).map (fun p => p.price)
        = [RawVal.num (-5)]
      ∧ ((-5 : Rat) < 0) := by
  constructor
  · rfl
  · decide

/-- Claim C2 (amended): after normalization, the price, stock and cost of a
product are numeric whenever the raw field was absent, numeric or a string —
numeric strings are parsed (stock via truncation toward zero, hence to an
integer value), unparseable strings degrade to 0, and normalization is a
total function (never raises); the values are not clamped, so a negative
input stays negative. -/
theorem validate_product_numeric (p : RawProduct) :
    (p.price ≠ RawVal.other → ∃ q : Rat, (validate_product p).price = RawVal.num q) ∧
    (p.cost ≠ RawVal.other → ∃ q : Rat, (validate_product p).cost = RawVal.num q) ∧
    (p.stock ≠ RawVal.other → ∃ q : Rat, (validate_product p).stock = RawVal.num q) ∧
    (∀ r, p.stock = RawVal.str r →
      ∃ n : Int, (validate_product p).stock = RawVal.num (n : Rat)) ∧
    (p.price = RawVal.str none → (validate_product p).price = RawVal.num 0) ∧
    (p.stock = RawVal.str none → (validate_product p).stock = RawVal.num 0) ∧
    (p.cost = RawVal.str none → (validate_product p).cost = RawVal.num 0) ∧
    (∀ q, p.price = RawVal.str (some q) →
      (validate_product p).price = RawVal.num q) ∧
    (∀ q, p.stock = RawVal.str (some q) →
      (validate_product p).stock = RawVal.num ((ztrunc q : Int) : Rat)) := by
  have hp : (validate_product p).price = normNumField p.price := rfl
  have hs : (validate_product p).stock = normStockField p.stock := rfl
  have hc : (validate_product p).cost = normNumField p.cost := rfl
  refine ⟨?_, ?_, ?_, ?_, ?_, ?_, ?_, ?_, ?_⟩
  · intro h
    rw [hp]
    exact normNumField_isNum p.price h
  · intro h
    rw [hc]
    exact normNumField_isNum p.cost h
  · intro h
    rw [hs]
    exact normStockField_isNum p.stock h
  · intro r hr
    rw [hs, hr]
    exact normStockField_str_isInt r
  · intro h
    rw [hp, h]
    rfl
  · intro h
    rw [hs, h]
    rfl
  · intro h
    rw [hc, h]
    rfl
  · intro q h
    rw [hp, h]
    rfl
  · intro q h
    rw [hs, h]
    rfl

/-- Witness for the amended C2 at a concrete raw product: the string "12.5"
normalizes to a number, and the unparseable stock string degrades to 0. -/
theorem validate_product_numeric_witness :
    (sample_raw_product.price ≠ RawVal.other) ∧
    (∃ q : Rat, (validate_product sample_raw_product).price = RawVal.num q) ∧
    (sample_raw_product.stock = RawVal.str none) ∧
    ((validate_product sample_raw_product).stock = RawVal.num 0) :=
  ⟨by decide,
   (validate_product_numeric sample_raw_product).1 (by decide),
   rfl,
   (validate_product_numeric sample_raw_product).2.2.2.2.2.1 rfl⟩

theorem apply_sale_item_no_match (ps : List Product) (nm : String) (q : Rat)
    (h : ∀ p ∈ ps, p.name ≠ nm) : apply_sale_item ps nm q = ps := by
  induction ps with
  | nil => rfl
  | cons p rest ih =>
    rw [apply_sale_item, if_neg (h p (by simp))]
    rw [ih fun x hx => h x (by simp [hx])]

theorem apply_sale_item_first (l1 : List Product) (p : Product)
    (l2 : List Product) (nm : String) (q : Rat)
    (h1 : ∀ x ∈ l1, x.name ≠ nm) (hp : p.name = nm) :
    apply_sale_item (l1 ++ p :: l2) nm q
      = l1 ++ { p with stock := max 0 (p.stock - q) } :: l2 := by
  induction l1 with
  | nil =>
    simp only [List.nil_append]
    rw [apply_sale_item, if_pos hp]
  | cons x rest ih =>
    simp only [List.cons_append]
    rw [apply_sale_item, if_neg (h1 x (by simp))]
    rw [ih fun y hy => h1 y (by simp [hy])]

/-- Claim C1: for a sale transaction, add_transaction folds the items over the
product list; for each item the first product (in document order) whose name
equals the item's name gets stock max 0 (stock - quantity), which is never
negative; an item whose name matches no product leaves every product
unchanged; a missing quantity defaults to 1. -/
theorem add_transaction_sale_spec :
    (∀ (doc : Doc) (pl : TxPayload) (now : Int), pl.type = some "sale" →
      ∃ d2 tr, add_transaction doc pl now = some (d2, tr) ∧
        d2.products = pl.items.foldl
          (fun acc it => apply_sale_item acc it.name (it.quantity.getD 1))
          doc.products) ∧
    (∀ (ps : List Product) (nm : String) (q : Rat),
      (∀ p ∈ ps, p.name ≠ nm) → apply_sale_item ps nm q = ps) ∧
    (∀ (l1 : List Product) (p : Product) (l2 : List Product) (nm : String) (q : Rat),
      (∀ x ∈ l1, x.name ≠ nm) → p.name = nm →
        apply_sale_item (l1 ++ p :: l2) nm q
            = l1 ++ { p with stock := max 0 (p.stock - q) } :: l2
          ∧ (0 : Rat) ≤ max 0 (p.stock - q)) ∧
    (∀ it : Item, it.quantity = none → it.quantity.getD 1 = 1) := by
  refine ⟨?_, apply_sale_item_no_match, ?_, ?_⟩
  · intro doc pl now h
    rcases pl with ⟨ty, amt, cu, su, de, its⟩
    simp only at h
    subst h
    exact ⟨_, _, rfl, by simp⟩
  · intro l1 p l2 nm q h1 h2
    exact ⟨apply_sale_item_first l1 p l2 nm q h1 h2, le_max_left 0 _⟩
  · intro it h
    rw [h]
    rfl

/-- Witness for C1 at concrete inputs: selling 3 of a stock-10 product leaves
stock 7, and the sale path of add_transaction takes it. -/
theorem add_transaction_sale_spec_witness :
    (sale_payload.type = some "sale") ∧
    (∃ d2 tr, add_transaction sample_doc sale_payload 0 = some (d2, tr) ∧
      d2.products = sale_payload.items.foldl
        (fun acc it => apply_sale_item acc it.name (it.quantity.getD 1))
        sample_doc.products) ∧
    (apply_sale_item ([] ++ drum10 :: []) "Drum" 3
        = [] ++ { drum10 with stock := max 0 (drum10.stock - 3) } :: []
      ∧ (0 : Rat) ≤ max 0 (drum10.stock - 3)) ∧
    (max (0 : Rat) (drum10.stock - 3) = 7) :=
  ⟨rfl,
   add_transaction_sale_spec.1 sample_doc sale_payload 0 rfl,
   add_transaction_sale_spec.2.2.1 [] drum10 [] "Drum" 3 (by simp) rfl,
   by norm_num [drum10]⟩

theorem update_products_none (ps : List Product) (pid : Int) (u : ProdUpdates)
    (now : Int) (h : ∀ p ∈ ps, p.id ≠ pid) :
    update_products ps pid u now = none := by
  induction ps with
  | nil => rfl
  | cons p rest ih =>
    rw [update_products, if_neg (h p (by simp))]
    rw [ih fun x hx => h x (by simp [hx])]

theorem update_notes_none (ns : List Note) (nid : String) (u : NoteUpdates)
    (now : Int) (h : ∀ n ∈ ns, n.id ≠ nid) :
    update_notes ns nid u now = none := by
  induction ns with
  | nil => rfl
  | cons n rest ih =>
    rw [update_notes, if_neg (h n (by simp))]
    rw [ih fun x hx => h x (by simp [hx])]

/-- Claim C6 counterexample: deleting a product identity absent from the
document does not yield a "not found" outcome — it returns HTTP 200 with the
success message path (and the document unchanged). -/
theorem delete_product_missing_returns_200 :
    delete_product sample_doc 2 = (sample_doc, 200) ∧ (200 : Nat) ≠ 404 := by
  constructor
  · rfl
  · decide

/-- Claim C6 (amended): an update addressed to a product or note identity
absent from the document yields the "not found" outcome and leaves the
document unchanged; a delete addressed to an absent identity leaves the
document unchanged but returns the success outcome (HTTP 200), never
"not found". -/
theorem missing_id_outcomes :
    (∀ (doc : Doc) (pid : Int) (u : ProdUpdates) (now : Int),
      (∀ p ∈ doc.products, p.id ≠ pid) →
        update_product doc pid u now = UpdateOutcome.notFound) ∧
    (∀ (doc : Doc) (pid : Int),
      (∀ p ∈ doc.products, p.id ≠ pid) → delete_product doc pid = (doc, 200)) ∧
    (∀ (doc : Doc) (nid : String) (u : NoteUpdates) (now : Int),
      (∀ n ∈ doc.notes, n.id ≠ nid) →
        update_note doc nid u now = UpdateOutcome.notFound) ∧
    (∀ (doc : Doc) (nid : String),
      (∀ n ∈ doc.notes, n.id ≠ nid) → delete_note doc nid = (doc, 200)) := by
  refine ⟨?_, ?_, ?_, ?_⟩
  · intro doc pid u now h
    rw [update_product, update_products_none doc.products pid u now h]
  · intro doc pid h
    rw [delete_product]
    rw [List.filter_eq_self.mpr fun a ha => by simpa using h a ha]
  · intro doc nid u now h
    rw [update_note, update_notes_none doc.notes nid u now h]
  · intro doc nid h
    rw [delete_note]
    rw [List.filter_eq_self.mpr fun a ha => by simpa using h a ha]

/-- Witness for the amended C6 at a concrete document: identity 2 is absent,
so update reports not found and delete reports success with no change. -/
theorem missing_id_outcomes_witness :
    (∀ p ∈ sample_doc.products, p.id ≠ 2) ∧
    (update_product sample_doc 2
        { id := none, name := none, price := some 9, stock := none, cost := none,
          category := none, supplier := none, min_stock := none, max_stock := none,
          barcode := none, unit := none } 0 = UpdateOutcome.notFound) ∧
    (delete_product sample_doc 2 = (sample_doc, 200)) :=
  ⟨by decide,
   missing_id_outcomes.1 sample_doc 2 _ 0 (by decide),
   missing_id_outcomes.2.1 sample_doc 2 (by decide)⟩

/-- Claim C7 counterexample: a transaction payload with no type key makes
add_transaction read transaction["type"] (src/app.py line 220) and terminate
with an unhandled KeyError instead of returning a result. -/
theorem add_transaction_missing_type :
    add_transaction sample_doc no_type_payload 0 = none := rfl

/-- Claim C7 (amended): every core operation on the modelled domain returns a
result, with one exception: creating a transaction from a payload whose type
field is absent terminates with an unhandled KeyError; whenever the payload
carries a type field, add_transaction returns a result. -/
theorem add_transaction_total_with_type :
    ∀ (doc : Doc) (pl : TxPayload) (now : Int) (ty : String),
      pl.type = some ty → ∃ d2 tr, add_transaction doc pl now = some (d2, tr) := by
  intro doc pl now ty h
  rcases pl with ⟨t, amt, cu, su, de, its⟩
  simp only at h
  subst h
  exact ⟨_, _, rfl⟩

/-- Witness for the amended C7: a purchase payload (with an unparseable
amount) still yields a result. -/
theorem add_transaction_total_with_type_witness :
    (purchase_payload.type = some "purchase") ∧
    (∃ d2 tr, add_transaction sample_doc purchase_payload 5 = some (d2, tr)) :=
  ⟨rfl, add_transaction_total_with_type sample_doc purchase_payload 5 "purchase" rfl⟩

theorem sum_amounts_append_one (ts : List Transaction) (t : Transaction)
    (ty : String) :
    sum_amounts (ts ++ [t]) ty
      = if t.type = ty then sum_amounts ts ty + t.amount
        else sum_amounts ts ty := by
  simp [sum_amounts, List.foldl_append]

/-- Claim C5: appending a purchase of amount X to the transaction log leaves
income unchanged and raises expenses by exactly X; appending a sale of
amount Y raises income and gross profit by exactly Y (and leaves expenses
unchanged), where income and expenses are the all-time sums computed by
get_balance. -/
theorem get_balance_append (doc : Doc) (tr : Transaction) :
    (tr.type = "purchase" →
      (get_balance { doc with transactions := doc.transactions ++ [tr] }).expenses
          = (get_balance doc).expenses + tr.amount
        ∧ (get_balance { doc with transactions := doc.transactions ++ [tr] }).income
          = (get_balance doc).income) ∧
    (tr.type = "sale" →
      (get_balance { doc with transactions := doc.transactions ++ [tr] }).income
          = (get_balance doc).income + tr.amount
        ∧ (get_balance { doc with transactions := doc.transactions ++ [tr] }).gross_profit
          = (get_balance doc).gross_profit + tr.amount
        ∧ (get_balance { doc with transactions := doc.transactions ++ [tr] }).expenses
          = (get_balance doc).expenses) := by
  constructor
  · intro h
    constructor
    · simp [get_balance, sum_amounts_append_one, h]
    · simp [get_balance, sum_amounts_append_one, h]
  · intro h
    refine ⟨?_, ?_, ?_⟩
    · simp [get_balance, sum_amounts_append_one, h]
    · simp only [get_balance, sum_amounts_append_one, h]
      simp
      ring
    · simp [get_balance, sum_amounts_append_one, h]

/-- Witness for C5 at a concrete document and transactions: a purchase of
4200 raises expenses by 4200 with income unchanged. -/
theorem get_balance_append_witness :
    (({ id := 1, date := some 0, type := "purchase", amount := 4200,
        customer := "", supplier := "P", description := "", items := [] }
          : Transaction).type = "purchase") ∧
    ((get_balance { sample_doc with transactions := sample_doc.transactions ++
        [{ id := 1, date := some 0, type := "purchase", amount := 4200,
           customer := "", supplier := "P", description := "", items := [] }]
      }).expenses
        = (get_balance sample_doc).expenses + 4200
      ∧ (get_balance { sample_doc with transactions := sample_doc.transactions ++
          [{ id := 1, date := some 0, type := "purchase", amount := 4200,
             customer := "", supplier := "P", description := "", items := [] }]
        }).income
        = (get_balance sample_doc).income) :=
  ⟨rfl, (get_balance_append sample_doc _).1 rfl⟩

theorem le_foldl_max (l : List Int) (a : Int) : a ≤ l.foldl max a := by
  induction l generalizing a with
  | nil => exact le_refl a
  | cons x xs ih =>
    exact le_trans (le_max_left a x) (ih (max a x))

theorem mem_le_foldl_max (l : List Int) (a x : Int) (hx : x ∈ l) :
    x ≤ l.foldl max a := by
  induction l generalizing a with
  | nil => cases hx
  | cons y ys ih =>
    rcases List.mem_cons.mp hx with h | h
    · subst h
      exact le_trans (le_max_right a x) (le_foldl_max ys (max a x))
    · exact ih (max a y) h

theorem mem_le_list_max0 (l : List Int) (x : Int) (hx : x ∈ l) :
    x ≤ list_max0 l := by
  cases l with
  | nil => cases hx
  | cons y ys =>
    rcases List.mem_cons.mp hx with h | h
    · subst h
      exact le_foldl_max ys x
    · exact mem_le_foldl_max ys y x h

theorem list_max0_concat (l : List Int) (a : Int) (ha : 0 ≤ a) :
    list_max0 (l ++ [a]) = max (list_max0 l) a := by
  cases l with
  | nil =>
    simp [list_max0]
    exact ha
  | cons x xs =>
    simp [list_max0, List.foldl_append]

theorem list_max0_seq (n : Nat) :
    list_max0 ((List.range n).map fun k : Nat => (k : Int) + 1) = n := by
  induction n with
  | zero => rfl
  | succ m ih =>
    rw [List.range_succ, List.map_append]
    simp only [List.map_cons, List.map_nil]
    rw [list_max0_concat _ _ (by omega), ih]
    omega

/-- Claim C3: product creations n times from an empty collection assign the
identities 1..n in order; every creation assigns max existing identity plus
one (1 when empty, via the default); transaction creation assigns identities
the same way; and after deleting a non-maximal identity the next created
identity is fresh: it collides neither with a remaining identity nor with the
deleted one. -/
theorem identity_assignment :
    (∀ (doc : Doc) (pl : ProdPayload) (now : Int) (n : Nat), doc.products = [] →
      ((create_products doc pl now n).products.map fun p => p.id)
        = (List.range n).map fun k : Nat => (k : Int) + 1) ∧
    (∀ (doc : Doc) (pl : ProdPayload) (now : Int),
      (add_product doc pl now).2.id
        = list_max0 (doc.products.map fun p => p.id) + 1) ∧
    (∀ (doc : Doc) (pl : TxPayload) (now : Int) (ty : String), pl.type = some ty →
      ∃ d2 tr, add_transaction doc pl now = some (d2, tr) ∧
        tr.id = list_max0 (doc.transactions.map fun t => t.id) + 1) ∧
    (∀ (doc : Doc) (pl : ProdPayload) (now : Int) (x : Int),
      x ∈ doc.products.map (fun p => p.id) →
      (∃ y ∈ doc.products.map fun p => p.id, x < y) →
        ((add_product (delete_product doc x).1 pl now).2.id
            ∉ (delete_product doc x).1.products.map fun p => p.id)
          ∧ (add_product (delete_product doc x).1 pl now).2.id ≠ x) := by
  refine ⟨?_, ?_, ?_, ?_⟩
  · intro doc pl now n hd
    induction n with
    | zero => simp [create_products, hd]
    | succ m ih =>
      show (((add_product (create_products doc pl now m) pl now).1).products.map
        fun p => p.id) = _
      simp only [add_product, List.map_append, List.map_cons, List.map_nil]
      rw [ih, next_id, list_max0_seq]
      rw [List.range_succ, List.map_append]
      simp
  · intro doc pl now
    rfl
  · intro doc pl now ty h
    rcases pl with ⟨t, amt, cu, su, de, its⟩
    simp only at h
    subst h
    exact ⟨_, _, rfl, rfl⟩
  · intro doc pl now x hx hy
    rcases hy with ⟨y, hy, hxy⟩
    have hmem : y ∈ (delete_product doc x).1.products.map fun p => p.id := by
      rcases List.mem_map.mp hy with ⟨p, hp, rfl⟩
      refine List.mem_map.mpr ⟨p, ?_, rfl⟩
      refine List.mem_filter.mpr ⟨hp, ?_⟩
      simp only [decide_eq_true_eq]
      omega
    have hy_le : y ≤ list_max0 ((delete_product doc x).1.products.map fun p => p.id) :=
      mem_le_list_max0 _ y hmem
    have hid : (add_product (delete_product doc x).1 pl now).2.id
        = list_max0 ((delete_product doc x).1.products.map fun p => p.id) + 1 := rfl
    constructor
    · intro hin
      rw [hid] at hin
      have := mem_le_list_max0 _ _ hin
      omega
    · rw [hid]
      omega

/-- Witness for C3 at concrete inputs: three creations from an empty document
assign 1, 2, 3; deleting the non-maximal identity 1 from a two-product
document and creating again assigns a fresh identity. -/
theorem identity_assignment_witness :
    (empty_doc.products = []) ∧
    (((create_products empty_doc sample_payload 0 3).products.map fun p => p.id)
      = (List.range 3).map fun k : Nat => (k : Int) + 1) ∧
    (1 ∈ two_doc.products.map fun p => p.id) ∧
    (∃ y ∈ two_doc.products.map fun p => p.id, 1 < y) ∧
    (((add_product (delete_product two_doc 1).1 sample_payload 0).2.id
        ∉ (delete_product two_doc 1).1.products.map fun p => p.id)
      ∧ (add_product (delete_product two_doc 1).1 sample_payload 0).2.id ≠ 1) :=
  ⟨rfl,
   identity_assignment.1 empty_doc sample_payload 0 3 rfl,
   by decide,
   ⟨2, by decide, by decide⟩,
   identity_assignment.2.2.2 two_doc sample_payload 0 1 (by decide)
     ⟨2, by decide, by decide⟩⟩

theorem dayWalk_eq (n : Nat) : ∀ s e : Int, e - s = (n : Int) * 86400 →
    dayWalk s e = (List.range (n + 1)).map fun k : Nat => s + (k : Int) * 86400 := by
  induction n with
  | zero =>
    intro s e h
    obtain rfl : e = s := by omega
    rw [dayWalk, dif_pos (le_refl _), dayWalk, dif_neg (by omega)]
    rw [List.range_succ, List.range_zero, List.nil_append, List.map_cons, List.map_nil]
    simp
  | succ m ih =>
    intro s e h
    have hse : s ≤ e := by omega
    rw [dayWalk, dif_pos hse, ih (s + 86400) e (by omega)]
    conv_rhs => rw [List.range_succ_eq_map, List.map_cons, List.map_map]
    congr 1
    · simp
    · refine List.map_congr_left ?_
      intro a _
      simp only [Function.comp_apply]
      push_cast
      ring

theorem dayOf_add_days (s : Int) (k : Nat) :
    dayOf (s + (k : Int) * 86400) = dayOf s + k := by
  unfold dayOf
  exact Int.add_mul_ediv_right s (k : Int) (by norm_num)

theorem bucket_step_id (s e d : Int) (acc : Rat) (tr : Transaction)
    (h : tr.type = "sale" →
      ∀ t, tr.date = some t → s ≤ t → t ≤ e → dayOf t ≠ d) :
    bucket_step s e d acc tr = acc := by
  unfold bucket_step
  by_cases hty : tr.type = "sale"
  · rw [if_pos hty]
    cases htr : tr.date with
    | none => rfl
    | some t =>
      show (if s ≤ t ∧ t ≤ e ∧ dayOf t = d then acc + tr.amount else acc) = acc
      rw [if_neg fun hc => (h hty t htr hc.1 hc.2.1) hc.2.2]
  · rw [if_neg hty]

theorem foldl_bucket_acc (ts : List Transaction) (s e d : Int) (acc : Rat)
    (h : ∀ tr ∈ ts, tr.type = "sale" →
      ∀ t, tr.date = some t → s ≤ t → t ≤ e → dayOf t ≠ d) :
    ts.foldl (bucket_step s e d) acc = acc := by
  induction ts generalizing acc with
  | nil => rfl
  | cons tr rest ih =>
    rw [List.foldl_cons, bucket_step_id s e d acc tr (h tr (by simp))]
    exact ih acc fun x hx => h x (by simp [hx])

theorem daily_total_zero (ts : List Transaction) (s e d : Int)
    (h : ∀ tr ∈ ts, tr.type = "sale" →
      ∀ t, tr.date = some t → s ≤ t → t ≤ e → dayOf t ≠ d) :
    daily_total ts s e d = 0 :=
  foldl_bucket_acc ts s e d 0 h

/-- Claim C4: for every non-negative days parameter, the sales series walks
every calendar day from window start to window end inclusive, emitting
exactly days+1 aligned date and amount entries, the k-th date being the k-th
day after the window start, and the amount is 0 for a day matched by no sale
transaction in the window. -/
theorem get_sales_analytics_dense (ts : List Transaction) (now days : Int)
    (hd : 0 ≤ days) :
    (get_sales_analytics ts now days).dates.length = days.toNat + 1 ∧
    (get_sales_analytics ts now days).sales.length = days.toNat + 1 ∧
    (∀ k, k < days.toNat + 1 →
      (get_sales_analytics ts now days).dates[k]?
        = some (dayOf (now - days * 86400) + k)) ∧
    (∀ k, k < days.toNat + 1 →
      (∀ tr ∈ ts, tr.type = "sale" → ∀ t, tr.date = some t →
        now - days * 86400 ≤ t → t ≤ now →
          dayOf t ≠ dayOf (now - days * 86400) + k) →
      (get_sales_analytics ts now days).sales[k]? = some 0) := by
  have hw : dayWalk (now - days * 86400) now
      = (List.range (days.toNat + 1)).map
          fun k : Nat => (now - days * 86400) + (k : Int) * 86400 :=
    dayWalk_eq days.toNat (now - days * 86400) now (by omega)
  refine ⟨?_, ?_, ?_, ?_⟩
  · show ((dayWalk (now - days * 86400) now).map dayOf).length = _
    rw [hw]
    simp
  · show ((dayWalk (now - days * 86400) now).map fun c =>
      daily_total ts (now - days * 86400) now (dayOf c)).length = _
    rw [hw]
    simp
  · intro k hk
    show ((dayWalk (now - days * 86400) now).map dayOf)[k]? = _
    rw [hw, List.map_map, List.getElem?_map, List.getElem?_range hk]
    simp [Function.comp, dayOf_add_days]
  · intro k hk h
    have hz : daily_total ts (now - days * 86400) now
        (dayOf (now - days * 86400) + (k : Int)) = 0 :=
      daily_total_zero ts (now - days * 86400) now _ h
    show ((dayWalk (now - days * 86400) now).map fun c =>
      daily_total ts (now - days * 86400) now (dayOf c))[k]? = _
    rw [hw, List.map_map, List.getElem?_map, List.getElem?_range hk]
    simp [Function.comp, dayOf_add_days, hz]

/-- Witness for C4 at a concrete window: a 5-day window with no transactions
yields exactly 6 aligned pairs. -/
theorem get_sales_analytics_dense_witness :
    ((0 : Int) ≤ 5) ∧
    (get_sales_analytics [] 0 5).dates.length = (5 : Int).toNat + 1 ∧
    (get_sales_analytics [] 0 5).sales.length = (5 : Int).toNat + 1 :=
  ⟨by decide,
   (get_sales_analytics_dense [] 0 5 (by decide)).1,
   (get_sales_analytics_dense [] 0 5 (by decide)).2.1⟩

/-- Claim C8: a restore request with a filename not ending in ".json", or
with content that fails to parse, is rejected with HTTP 400 and the persisted
document is exactly what it was (no save on the failure path); on success the
uploaded content, normalized by validate_data, fully replaces the persisted
document with HTTP 200; a missing upload is likewise rejected untouched. -/
theorem restore_data_spec :
    (∀ (p : RawDoc) (fname : String) (c : Option RawDoc),
      ends_with fname ".json" = false →
        restore_data p (some (fname, c)) = (p, 400)) ∧
    (∀ (p : RawDoc) (fname : String),
      restore_data p (some (fname, none)) = (p, 400)) ∧
    (∀ (p : RawDoc) (fname : String) (d : RawDoc),
      ends_with fname ".json" = true →
        restore_data p (some (fname, some d)) = (validate_data d, 200)) ∧
    (∀ p : RawDoc, restore_data p none = (p, 400)) := by
  refine ⟨?_, ?_, ?_, ?_⟩
  · intro p fname c h
    simp only [restore_data]
    by_cases hf : fname = ""
    · rw [if_pos hf]
    · rw [if_neg hf, if_neg (by simp [h])]
  · intro p fname
    simp only [restore_data]
    by_cases hf : fname = ""
    · rw [if_pos hf]
    · rw [if_neg hf]
      by_cases hj : ends_with fname ".json" = true
      · rw [if_pos hj]
      · rw [if_neg hj]
  · intro p fname d h
    have hne : fname ≠ "" := fun he => by
      subst he
      exact absurd h (by decide)
    simp only [restore_data]
    rw [if_neg hne, if_pos h]
  · intro p
    rfl

/-- Witness for C8 at concrete inputs: a txt filename is rejected leaving the
seed document untouched, and a json filename replaces it with the normalized
upload. -/
theorem restore_data_spec_witness :
    (ends_with "x.txt" ".json" = false) ∧
    (restore_data get_default_data (some ("x.txt", some bad_doc))
      = (get_default_data, 400)) ∧
    (ends_with "backup.json" ".json" = true) ∧
    (restore_data get_default_data (some ("backup.json", some bad_doc))
      = (validate_data bad_doc, 200)) :=
  ⟨by decide,
   restore_data_spec.1 get_default_data "x.txt" (some bad_doc) (by decide),
   by decide,
   restore_data_spec.2.2.1 get_default_data "backup.json" bad_doc (by decide)⟩

theorem update_products_first (l1 : List Product) (p : Product)
    (l2 : List Product) (pid : Int) (u : ProdUpdates) (now : Int)
    (h1 : ∀ x ∈ l1, x.id ≠ pid) (hp : p.id = pid) :
    update_products (l1 ++ p :: l2) pid u now
      = some (l1 ++ apply_updates p u now :: l2, apply_updates p u now) := by
  induction l1 with
  | nil =>
    simp only [List.nil_append]
    rw [update_products, if_pos hp]
  | cons x rest ih =>
    simp only [List.cons_append]
    rw [update_products, if_neg (h1 x (by simp))]
    rw [ih fun y hy => h1 y (by simp [hy])]

theorem getElem?_append_cons_self (l1 l2 : List Product) (a : Product) :
    (l1 ++ a :: l2)[l1.length]? = some a := by
  induction l1 with
  | nil => simp
  | cons x xs ih => simpa using ih

theorem getElem?_append_cons_ne (l1 l2 : List Product) (a b : Product)
    (j : Nat) (hj : j ≠ l1.length) :
    (l1 ++ a :: l2)[j]? = (l1 ++ b :: l2)[j]? := by
  induction l1 generalizing j with
  | nil =>
    cases j with
    | zero => exact absurd rfl hj
    | succ m => simp
  | cons x xs ih =>
    cases j with
    | zero => simp
    | succ m =>
      simp only [List.cons_append, List.getElem?_cons_succ]
      exact ih m fun hm => hj (by simp [hm])

/-- Claim C10: updating an existing product identity modifies only the first
product with that identity (applying the supplied field updates plus the
last_updated timestamp); every other product keeps its value and position,
the product count is unchanged, and the transactions, customers, suppliers,
notes and settings collections are all unchanged. -/
theorem update_product_frame :
    ∀ (doc : Doc) (pid : Int) (u : ProdUpdates) (now : Int)
      (l1 : List Product) (p : Product) (l2 : List Product),
      doc.products = l1 ++ p :: l2 → (∀ x ∈ l1, x.id ≠ pid) → p.id = pid →
        update_product doc pid u now
            = UpdateOutcome.ok
                { doc with products := l1 ++ apply_updates p u now :: l2 }
                (apply_updates p u now)
          ∧ (∀ (d2 : Doc) (q : Product),
              update_product doc pid u now = UpdateOutcome.ok d2 q →
                d2.transactions = doc.transactions ∧
                d2.customers = doc.customers ∧
                d2.suppliers = doc.suppliers ∧
                d2.notes = doc.notes ∧
                d2.settings = doc.settings ∧
                d2.products.length = doc.products.length ∧
                (∀ j, j ≠ l1.length → d2.products[j]? = doc.products[j]?) ∧
                d2.products[l1.length]? = some (apply_updates p u now) ∧
                q = apply_updates p u now) := by
  intro doc pid u now l1 p l2 hd h1 hp
  have hu : update_product doc pid u now
      = UpdateOutcome.ok
          { doc with products := l1 ++ apply_updates p u now :: l2 }
          (apply_updates p u now) := by
    unfold update_product
    rw [hd, update_products_first l1 p l2 pid u now h1 hp]
  refine ⟨hu, ?_⟩
  intro d2 q h2
  rw [hu] at h2
  injection h2 with h3 h4
  subst h3
  subst h4
  refine ⟨rfl, rfl, rfl, rfl, rfl, ?_, ?_, ?_, rfl⟩
  · rw [hd]
    simp
  · intro j hj
    rw [hd]
    exact getElem?_append_cons_ne l1 l2 _ _ j hj
  · exact getElem?_append_cons_self l1 l2 _

/-- Witness for C10 at a concrete document: updating the price of the product
with identity 2 rewrites only that product. -/
theorem update_product_frame_witness :
    (two_doc.products = [drum10] ++ drum2 :: []) ∧
    (∀ x ∈ [drum10], x.id ≠ 2) ∧
    (drum2.id = 2) ∧
    (update_product two_doc 2 sample_updates 9
      = UpdateOutcome.ok
          { two_doc with
            products := [drum10] ++ apply_updates drum2 sample_updates 9 :: [] }
          (apply_updates drum2 sample_updates 9)) :=
  ⟨rfl, by decide, rfl,
   (update_product_frame two_doc 2 sample_updates 9 [drum10] drum2 []
      rfl (by decide) rfl).1⟩

end App
